import Mathlib

/-! cilium-health: bootstrap and daemon lifecycle (`cilium-health/cmd/root.go`)

A shallow embedding of `root.go`.  The Go functions `Fatalf`, `init`,
`getAdminOption`, `initConfig`, `runServer` and `run` become functions in a
small process monad `Proc` that threads the package-level variables and a
trace of observable effects and that can end the process (`os.Exit`).
Everything the file calls but does not define (the operating system, viper,
pflag, cobra, logrus, gops and the sibling packages of the repository) is
either a field of `Env`, an oracle fixed for one run, or a small model of the
library's documented behaviour.
-/

namespace CiliumHealth

/-! ## Go strings -/

/-- The Go function `unicode.ToLower` on one rune.  ASCII capitals map to the
small letter, every other ASCII rune is unchanged; runes from `0x80` on are
looked up in the Unicode tables, which are the argument `tbl`. -/
def toLowerRune (tbl : Char → Char) (c : Char) : Char :=
  if c.toNat < 0x80 then
    if 'A'.toNat ≤ c.toNat ∧ c.toNat ≤ 'Z'.toNat then Char.ofNat (c.toNat + 32) else c
  else tbl c

/-- The Go function `unicode.ToUpper` on one rune, as `toLowerRune`. -/
def toUpperRune (tbl : Char → Char) (c : Char) : Char :=
  if c.toNat < 0x80 then
    if 'a'.toNat ≤ c.toNat ∧ c.toNat ≤ 'z'.toNat then Char.ofNat (c.toNat - 32) else c
  else tbl c

/-- The Go function `strings.ToLower`: `unicode.ToLower` applied to every rune. -/
def ToLower (tbl : Char → Char) (s : String) : String :=
  String.mk (s.data.map (toLowerRune tbl))

/-- The Go function `strings.ToUpper`: `unicode.ToUpper` applied to every rune. -/
def ToUpper (tbl : Char → Char) (s : String) : String :=
  String.mk (s.data.map (toUpperRune tbl))

/-- The Go function `strconv.ParseBool` with its error dropped, which is how
`cast.ToBool` uses it: the six spellings of true give `true`, all else `false`. -/
def ParseBool (s : String) : Bool :=
  s == "1" || s == "t" || s == "T" || s == "true" || s == "TRUE" || s == "True"

/-! ## Go fixed-width integers and `time.Duration` -/

/-- Two's-complement wrap of a mathematical integer into `int64`. -/
def wrapInt64 (x : Int) : Int :=
  (x + 9223372036854775808) % 18446744073709551616 - 9223372036854775808

/-- A `time.Duration` is an `int64` count of nanoseconds. -/
abbrev Duration := Int

/-- The constant `time.Second`. -/
def Second : Duration := 1000000000

/-- The conversion `time.Duration(n)` of a Go `int` (64 bits on the platforms
the agent is built for). -/
def Duration.ofInt (n : Int) : Duration := wrapInt64 n

/-- Multiplication of two durations, in `int64` arithmetic. -/
def Duration.mul (a b : Duration) : Duration := wrapInt64 (a * b)

/-- The exit status a parent process sees for `os.Exit(code)` on Linux: the
low eight bits. -/
def exitStatus (code : Int) : Nat := (code % 256).toNat

/-! ## The server package: options and configuration -/

/-- The Go type `serverPkg.AdminOption`, a string type. -/
abbrev AdminOption := String

/-- Modelled from the spec: the constant `serverPkg.AdminOptionAny`, declared
in `pkg/health/server`; the spec names the enumeration `any`, `unix`. -/
def AdminOptionAny : AdminOption := "any"

/-- Modelled from the spec: the constant `serverPkg.AdminOptionUnix`, declared
in `pkg/health/server`. -/
def AdminOptionUnix : AdminOption := "unix"

/-- Modelled from the spec: the slice `serverPkg.AdminOptions` of all valid
options, declared in `pkg/health/server`; the spec gives the closed
enumeration (`any`, `unix`). -/
def AdminOptions : List AdminOption := [AdminOptionAny, AdminOptionUnix]

/-- The struct `serverPkg.Config`, with the fields `initConfig` fills in. -/
structure Config where
  CiliumURI : String
  Debug : Bool
  Passive : Bool
  Admin : AdminOption
  ProbeInterval : Duration
  ProbeDeadline : Duration
  deriving DecidableEq, Repr

/-- A server handle, as returned by `serverPkg.NewServer`; it is known here
only by the configuration it was built from. -/
structure Server where
  config : Config
  deriving DecidableEq, Repr

/-- A client handle, as returned by `clientPkg.NewClient`; it is known here
only by the host it was built for. -/
structure Client where
  host : String
  deriving DecidableEq, Repr

/-! ## Values held by flags, the environment and the config file -/

/-- A configuration value, of one of the three types the flags of `init` use. -/
inductive Value where
  | str (s : String)
  | bool (b : Bool)
  | int (n : Int)
  deriving DecidableEq, Repr

/-- The type of a pflag flag: `StringP`, `BoolP` or `IntP`. -/
inductive FlagType where
  | string
  | bool
  | int
  deriving DecidableEq, Repr

/-- One flag of a pflag `FlagSet`: its name, type, current value and whether
the command line set it (`Changed`). -/
structure Flag where
  name : String
  shorthand : String
  valueType : FlagType
  value : Value
  changed : Bool
  hidden : Bool
  deriving DecidableEq, Repr

/-- What the blocking call `server.Serve()` does in one run: it never returns,
or it returns `nil` (`returns none`) or an error (`returns (some err)`). -/
inductive ServeResult where
  | blocks
  | returns (err : Option String)
  deriving DecidableEq, Repr

/-- The surroundings of one run of the program, fixed from outside: the parsed
command line, the process environment, the file system, and the results of
the calls into other packages.  An error result is `some message`, success is
`none`. -/
structure Env where
  /-- Unicode lower-case table for runes outside ASCII. -/
  unicodeLower : Char → Char
  /-- Unicode upper-case table for runes outside ASCII. -/
  unicodeUpper : Char → Char
  /-- The Go call `strconv.ParseInt(s, 0, 0)`, `none` when it reports an error. -/
  parseInt : String → Option Int
  /-- The flags given on the command line, with the values pflag parsed. -/
  args : List (String × Value)
  /-- The process environment, as `os.Getenv` sees it. -/
  environ : List (String × String)
  /-- The settings of the config file found under the given search paths and
  base name, if a readable one is there. -/
  configFile : List String → String → Option (List (String × Value))
  /-- Whether the process runs as root. -/
  isRoot : Bool
  /-- The exit code `common.RequireRootPrivilege` ends the process with. -/
  privilegeExit : Int
  /-- The constant `defaults.SockPath`, declared in `pkg/health/defaults`. -/
  SockPath : String
  /-- The result of `gops.Listen`. -/
  gopsListen : Option String
  /-- The error result of `serverPkg.NewServer`. -/
  NewServer : Config → Option String
  /-- The error result of `clientPkg.NewClient`. -/
  NewClient : String → Option String
  /-- The behaviour of `server.Serve()`. -/
  Serve : ServeResult
  /-- The error result of the `i`-th call (from 0) of `os.Stat` on the socket path. -/
  stat : Nat → Option String
  /-- The error result of `apisocket.SetDefaultPermissions`. -/
  SetDefaultPermissions : String → Option String

/-! ## viper -/

/-- The part of the global viper instance this program can touch.  Its
override, alias, default, bound-environment and key/value-store layers are
left out: the program never fills them, so they stay empty.  The field
`config` holds the settings of a config file once one has been read. -/
structure Viper where
  envPrefix : String
  configName : String
  configPaths : List String
  automaticEnvApplied : Bool
  config : List (String × Value)
  pflags : List Flag
  deriving DecidableEq, Repr

/-- The function `cast.ToString` on a value. -/
def castToString : Value → String
  | .str s => s
  | .bool b => if b then "true" else "false"
  | .int n => toString n

/-- The function `cast.ToBool` on a value. -/
def castToBool : Value → Bool
  | .str s => ParseBool s
  | .bool b => b
  | .int n => n != 0

/-- The function `cast.ToInt` on a value; a string that does not parse gives 0. -/
def castToInt (E : Env) : Value → Int
  | .str s => (E.parseInt s).getD 0
  | .bool b => if b then 1 else 0
  | .int n => n

/-- The value viper takes from a bound flag: the flag's value, cast to the
flag's type. -/
def Flag.cast (E : Env) (f : Flag) : Value :=
  match f.valueType with
  | .int => .int (castToInt E f.value)
  | .bool => .bool (castToBool f.value)
  | .string => .str (castToString f.value)

/-- The function `os.Getenv`: the empty string when the variable is unset. -/
def Getenv (E : Env) (key : String) : String :=
  (E.environ.lookup key).getD ""

/-- The viper method `mergeWithEnvPrefix`: the upper-cased name of the
environment variable for a key. -/
def Viper.mergeWithEnvPrefix (E : Env) (v : Viper) (key : String) : String :=
  if v.envPrefix != "" then ToUpper E.unicodeUpper (v.envPrefix ++ "_" ++ key)
  else ToUpper E.unicodeUpper key

/-- The viper method `find`, over the layers this program can fill, in viper's
order: a flag the command line set, then (with `AutomaticEnv`) a non-empty
environment variable, then the config that was read, and last the value of a
bound flag that was not set, which is the flag's default. -/
def Viper.find (E : Env) (v : Viper) (lcaseKey : String) : Option Value :=
  let flag := v.pflags.find? (fun f => f.name == lcaseKey)
  match flag.filter (fun f => f.changed) with
  | some f => some (f.cast E)
  | none =>
    let val := if v.automaticEnvApplied then Getenv E (v.mergeWithEnvPrefix E lcaseKey) else ""
    if val != "" then some (.str val)
    else
      match v.config.lookup lcaseKey with
      | some c => some c
      | none => flag.map (fun f => f.cast E)

/-- The viper method `Get`: keys are case-insensitive. -/
def Viper.Get (E : Env) (v : Viper) (key : String) : Option Value :=
  v.find E (ToLower E.unicodeLower key)

/-- The viper method `GetString`; a missing key gives the empty string. -/
def Viper.GetString (E : Env) (v : Viper) (key : String) : String :=
  ((v.Get E key).map castToString).getD ""

/-- The viper method `GetBool`; a missing key gives `false`. -/
def Viper.GetBool (E : Env) (v : Viper) (key : String) : Bool :=
  ((v.Get E key).map castToBool).getD false

/-- The viper method `GetInt`; a missing key gives 0. -/
def Viper.GetInt (E : Env) (v : Viper) (key : String) : Int :=
  ((v.Get E key).map (castToInt E)).getD 0

/-- The viper method `SetEnvPrefix`. -/
def Viper.SetEnvPrefix (v : Viper) (p : String) : Viper :=
  { v with envPrefix := p }

/-- The viper method `SetConfigName`. -/
def Viper.SetConfigName (v : Viper) (n : String) : Viper :=
  { v with configName := n }

/-- The viper method `AddConfigPath`. -/
def Viper.AddConfigPath (v : Viper) (p : String) : Viper :=
  { v with configPaths := v.configPaths ++ [p] }

/-- The viper method `AutomaticEnv`. -/
def Viper.AutomaticEnv (v : Viper) : Viper :=
  { v with automaticEnvApplied := true }

/-- The viper method `ReadInConfig`: the one call that looks for the config
file on the search paths and loads its settings.  A missing file leaves the
config as it was. -/
def Viper.ReadInConfig (E : Env) (v : Viper) : Viper :=
  match E.configFile v.configPaths v.configName with
  | some kv => { v with config := kv }
  | none => v

/-- The viper method `BindPFlags`: every flag of the set is bound under its name. -/
def Viper.BindPFlags (v : Viper) (flags : List Flag) : Viper :=
  { v with pflags := v.pflags ++ flags }

/-- A fresh viper instance, as `viper.New()` makes it. -/
def Viper.new : Viper :=
  { envPrefix := "", configName := "config", configPaths := [],
    automaticEnvApplied := false, config := [], pflags := [] }

/-! ## The process monad -/

/-- The two log levels `initConfig` chooses between. -/
inductive LogLevel where
  | debug
  | info
  deriving DecidableEq, Repr

/-- An observable effect: a call that leaves the program text of `root.go`. -/
inductive Event where
  | stderr (text : String)
  | stdout (text : String)
  | newServer (config : Config)
  | newClient (host : String)
  | requireRoot (cmd : String)
  | remove (path : String)
  | gopsListen
  | spawnFixup
  | serve
  | shutdown
  | stat (path : String) (err : Option String)
  | sleep (d : Duration)
  | setDefaultPermissions (path : String)
  | logDebug (msg err : String)
  | logInfo (msg : String)
  | logFatal (msg err : String)
  | help
  deriving DecidableEq, Repr

/-- The package-level variables of `cmd` (`server`, `client`, the level of
`log`), the global viper instance, and the effects so far. -/
structure State where
  viper : Viper
  logLevel : LogLevel
  server : Option Server
  client : Option Client
  trace : List Event
  deriving DecidableEq, Repr

/-- How a computation on the main goroutine ends: it returns a value, the
process ends through `os.Exit(code)`, or it stays in a blocking call for good. -/
inductive Outcome (α : Type) where
  | ret (a : α) (s : State)
  | exit (code : Int) (s : State)
  | block (s : State)
  deriving DecidableEq, Repr

/-- The state an outcome ends in. -/
def Outcome.state {α : Type} : Outcome α → State
  | .ret _ s => s
  | .exit _ s => s
  | .block s => s

/-- The effects up to the end of an outcome. -/
def Outcome.trace {α : Type} (o : Outcome α) : List Event := o.state.trace

/-- The exit code of the process when the outcome is that of `main`: 0 when
`main` returns, the argument of `os.Exit` otherwise, none while it blocks. -/
def Outcome.exitCode {α : Type} : Outcome α → Option Int
  | .ret _ _ => some 0
  | .exit c _ => some c
  | .block _ => none

/-- A computation of the main goroutine. -/
def Proc (α : Type) : Type := State → Outcome α

/-- Sequencing: what follows an `os.Exit` or a call that never returns is not run. -/
def Proc.bind {α β : Type} (m : Proc α) (f : α → Proc β) : Proc β := fun s =>
  match m s with
  | .ret a s1 => f a s1
  | .exit c s1 => .exit c s1
  | .block s1 => .block s1

instance : Monad Proc where
  pure := fun a s => .ret a s
  bind := Proc.bind

/-- Record one effect. -/
def emit (e : Event) : Proc Unit := fun s =>
  .ret () { s with trace := s.trace ++ [e] }

/-- The Go function `os.Exit`: the process ends at once. -/
def osExit {α : Type} (code : Int) : Proc α := fun s => .exit code s

/-- A Go `defer`: the deferred call runs when the rest of the function body
returns.  It does not run when the process ends through `os.Exit`, and it
has not run while the body is still blocked. -/
def withDefer {α : Type} (deferred : Proc Unit) (body : Proc α) : Proc α := fun s =>
  match body s with
  | .ret a s1 =>
    match deferred s1 with
    | .ret _ s2 => .ret a s2
    | .exit c s2 => .exit c s2
    | .block s2 => .block s2
  | .exit c s1 => .exit c s1
  | .block s1 => .block s1

/-- Read the global viper instance. -/
def getViper : Proc Viper := fun s => .ret s.viper s

/-- Update the global viper instance. -/
def modifyViper (f : Viper → Viper) : Proc Unit := fun s =>
  .ret () { s with viper := f s.viper }

/-- The assignment `log.Level = level`. -/
def setLogLevel (level : LogLevel) : Proc Unit := fun s =>
  .ret () { s with logLevel := level }

/-- The assignment `server = srv`. -/
def setServer (srv : Server) : Proc Unit := fun s =>
  .ret () { s with server := some srv }

/-- The assignment `client = cl`. -/
def setClient (cl : Client) : Proc Unit := fun s =>
  .ret () { s with client := some cl }

/-- The call `viper.GetString(key)`. -/
def GetString (E : Env) (key : String) : Proc String := do
  return (← getViper).GetString E key

/-- The call `viper.GetBool(key)`. -/
def GetBool (E : Env) (key : String) : Proc Bool := do
  return (← getViper).GetBool E key

/-- The call `viper.GetInt(key)`. -/
def GetInt (E : Env) (key : String) : Proc Int := do
  return (← getViper).GetInt E key

/-! ## Calls into other packages -/

/-- The call `fmt.Println(text)`. -/
def Println (text : String) : Proc Unit :=
  emit (.stdout (text ++ "\n"))

/-- How `fmt` prints a slice of strings under the verb `%s`: the elements in
square brackets, separated by one space. -/
def fmtSlice (xs : List String) : String :=
  "[" ++ " ".intercalate xs ++ "]"

/-- The call `serverPkg.NewServer(config)`: the handle, or the error. -/
def NewServer (E : Env) (config : Config) : Proc (Except String Server) := do
  emit (.newServer config)
  match E.NewServer config with
  | some err => return .error err
  | none => return .ok { config := config }

/-- The call `clientPkg.NewClient(host)`: the handle, or the error. -/
def NewClient (E : Env) (host : String) : Proc (Except String Client) := do
  emit (.newClient host)
  match E.NewClient host with
  | some err => return .error err
  | none => return .ok { host := host }

/-- Modelled from the spec: `common.RequireRootPrivilege`, defined in the
package `common`, is not part of the sources at hand.  The spec: the check
verifies that the process runs with the required privileges, and its failure
ends the process before any resource is touched. -/
def RequireRootPrivilege (E : Env) (cmd : String) : Proc Unit := do
  emit (.requireRoot cmd)
  if E.isRoot then return () else osExit E.privilegeExit

/-- The call `os.Remove(path)`, whose result `runServer` drops. -/
def osRemove (path : String) : Proc Unit :=
  emit (.remove path)

/-- The call `gops.Listen(gops.Options{})`: the error, if any. -/
def gopsListen (E : Env) : Proc (Option String) := do
  emit .gopsListen
  return E.gopsListen

/-- The call `server.Serve()`: it blocks, and returns an error or `nil` if it
returns at all. -/
def Serve (E : Env) : Proc (Option String) := fun s =>
  let s1 := { s with trace := s.trace ++ [.serve] }
  match E.Serve with
  | .blocks => .block s1
  | .returns err => .ret err s1

/-- The call `server.Shutdown()`. -/
def Shutdown : Proc Unit :=
  emit .shutdown

/-- The logrus call `log.WithError(err).Fatal(msg)`: the entry is logged and
the process then ends through `os.Exit(1)`. -/
def logFatal {α : Type} (msg err : String) : Proc α := do
  emit (.logFatal msg err)
  osExit 1

/-- The cobra call `cmd.Help()`, which prints the usage text. -/
def Help : Proc Unit :=
  emit .help

/-! ## `root.go` -/

/-- The constant `targetName`. -/
def targetName : String := "cilium-health"

/-- The function `Fatalf`, applied to the message already formatted: it prints
the message to stderr and ends the process with `os.Exit(-1)`. -/
def Fatalf (msg : String) : Proc Unit := do
  emit (.stderr ("Error: " ++ msg ++ "\n"))
  osExit (-1)

/-- The flag set `init` declares on the root command, every flag at its
default. -/
def flags : List Flag :=
  [ { name := "admin", shorthand := "", valueType := .string,
      value := .str AdminOptionAny, changed := false, hidden := false },
    { name := "debug", shorthand := "D", valueType := .bool,
      value := .bool false, changed := false, hidden := false },
    { name := "daemon", shorthand := "d", valueType := .bool,
      value := .bool false, changed := false, hidden := false },
    { name := "passive", shorthand := "p", valueType := .bool,
      value := .bool false, changed := false, hidden := false },
    { name := "host", shorthand := "H", valueType := .string,
      value := .str "", changed := false, hidden := false },
    { name := "cilium", shorthand := "c", valueType := .string,
      value := .str "", changed := false, hidden := false },
    { name := "interval", shorthand := "i", valueType := .int,
      value := .int 60, changed := false, hidden := false },
    { name := "json", shorthand := "j", valueType := .bool,
      value := .bool false, changed := false, hidden := true } ]

/-- The function `init`: the package state after it has run, with the flags
declared and bound to viper (`viper.BindPFlags(flags)`). -/
def init : State :=
  { viper := Viper.new.BindPFlags flags, logLevel := .info,
    server := none, client := none, trace := [] }

/-- The function `getAdminOption`. -/
def getAdminOption (E : Env) : Proc AdminOption := do
  let userOpt := ToLower E.unicodeLower (← GetString E "admin")
  match AdminOptions.find? (fun opt => opt == userOpt) with
  | some opt => return opt
  | none =>
    Fatalf ("Invalid admin option \"" ++ ToLower E.unicodeLower (← GetString E "admin")
      ++ "\" (must be one of " ++ fmtSlice AdminOptions ++ ")")
    return ""

/-- The function `initConfig`. -/
def initConfig (E : Env) : Proc Unit := do
  modifyViper (fun v => v.SetEnvPrefix "cilium-health")
  modifyViper (fun v => v.SetConfigName ".cilium-health")
  modifyViper (fun v => v.AddConfigPath "$HOME")
  modifyViper (fun v => v.AutomaticEnv)
  if (← GetBool E "debug") then
    setLogLevel .debug
  else
    setLogLevel .info
  if (← GetBool E "daemon") then
    let config : Config :=
      { CiliumURI := ← GetString E "cilium",
        Debug := ← GetBool E "debug",
        Passive := ← GetBool E "passive",
        Admin := ← getAdminOption E,
        ProbeInterval := Duration.mul (Duration.ofInt (← GetInt E "interval")) Second,
        ProbeDeadline := Second }
    match ← NewServer E config with
    | .error err => Fatalf ("Error while creating server: " ++ err ++ "\n")
    | .ok srv => setServer srv
  else
    match ← NewClient E (← GetString E "host") with
    | .error err => Fatalf ("Error while creating client: " ++ err ++ "\n")
    | .ok cl => setClient cl

/-- The for-loop of the goroutine `runServer` starts, run for at most `fuel`
rounds from the `i`-th call of `os.Stat`: the effects of these rounds, and
whether the loop was left through `break`. -/
def statLoop (E : Env) : Nat → Nat → List Event × Bool
  | 0, _ => ([], false)
  | fuel + 1, i =>
    match E.stat i with
    | none => ([.stat E.SockPath none], true)
    | some err =>
      let rest := statLoop E fuel (i + 1)
      (.stat E.SockPath (some err) :: .logDebug "Cannot find socket" err
          :: .sleep (Duration.mul 1 Second) :: rest.1, rest.2)

/-- How far the goroutine has come: still in its loop, returned, or it has
ended the process. -/
inductive TaskOutcome where
  | polling (trace : List Event)
  | done (trace : List Event)
  | exit (code : Int) (trace : List Event)
  deriving DecidableEq, Repr

/-- The effects of the goroutine so far. -/
def TaskOutcome.trace : TaskOutcome → List Event
  | .polling tr => tr
  | .done tr => tr
  | .exit _ tr => tr

/-- The goroutine of `runServer` that sets the permissions of the socket, with
at most `fuel` rounds of its loop. -/
def permissionFixup (E : Env) (fuel : Nat) : TaskOutcome :=
  match statLoop E fuel 0 with
  | (tr, false) => .polling tr
  | (tr, true) =>
    match E.SetDefaultPermissions E.SockPath with
    | some err =>
      .exit 1 (tr ++ [.setDefaultPermissions E.SockPath,
        .logFatal "Cannot set default permissions on socket" err])
    | none =>
      .done (tr ++ [.setDefaultPermissions E.SockPath,
        .logInfo "Successfully set default permissions on socket"])

/-- The function `runServer`.  The goroutine is started (`spawnFixup`) and then
runs on its own, see `permissionFixup`. -/
def runServer (E : Env) : Proc Unit := do
  RequireRootPrivilege E targetName
  osRemove E.SockPath
  if let some err ← gopsListen E then
    let errorString := "unable to start gops: " ++ err
    Println errorString
    osExit (-1)
  emit .spawnFixup
  withDefer Shutdown do
    if let some err ← Serve E then
      logFatal "Failed to serve cilium-health API" err

/-- The function `run`. -/
def run (E : Env) : Proc Unit := do
  if (← GetBool E "daemon") then
    runServer E
  else
    Help

/-- The flag set after cobra has parsed the command line: a flag that was
given holds the parsed value and is marked changed. -/
def parseFlags (args : List (String × Value)) (fs : List Flag) : List Flag :=
  fs.map (fun f =>
    match args.lookup f.name with
    | some v => { f with value := v, changed := true }
    | none => f)

/-- The call `rootCmd.Execute()` for a command line cobra accepts and that
names no subcommand and no `--help`: the flags are parsed, the function
registered with `cobra.OnInitialize` runs, then the `Run` function of the
root command.  Cobra reports no error on this path. -/
def rootCmdExecute (E : Env) : Proc (Option String) := do
  modifyViper (fun v => { v with pflags := parseFlags E.args v.pflags })
  initConfig E
  run E
  return none

/-- The function `Execute`. -/
def Execute (E : Env) : Proc Unit := do
  if let some err ← rootCmdExecute E then
    Println err
    osExit (-1)

/-- One run of the program: `init`, then `Execute` called from `main`. -/
def program (E : Env) : Outcome Unit := Execute E init

/-! ## Vocabulary for the statements -/

/-- The viper instance after the four set-up calls at the top of `initConfig`. -/
def Viper.configured (v : Viper) : Viper :=
  (((v.SetEnvPrefix "cilium-health").SetConfigName ".cilium-health").AddConfigPath
    "$HOME").AutomaticEnv

/-- The package state after the set-up calls and the choice of the log level
in `initConfig`. -/
def State.configured (E : Env) (s : State) : State :=
  { s with viper := s.viper.configured,
           logLevel := if s.viper.configured.GetBool E "debug" then .debug else .info }

/-- The local `userOpt` of `getAdminOption`: the admin setting in lower case. -/
def userOpt (E : Env) (v : Viper) : String :=
  ToLower E.unicodeLower (v.GetString E "admin")

/-- The struct literal `config` of `initConfig`, for an admin setting that
`getAdminOption` accepts (it then returns `userOpt`). -/
def serverConfig (E : Env) (v : Viper) : Config :=
  { CiliumURI := v.GetString E "cilium",
    Debug := v.GetBool E "debug",
    Passive := v.GetBool E "passive",
    Admin := userOpt E v,
    ProbeInterval := Duration.mul (Duration.ofInt (v.GetInt E "interval")) Second,
    ProbeDeadline := Second }

/-- The package state when cobra has parsed the command line and is about to
call `initConfig`. -/
def start (E : Env) : State :=
  { init with viper := { init.viper with pflags := parseFlags E.args init.viper.pflags } }

/-- The viper instance `initConfig` and `run` read from in a run of the program:
the resolved configuration. -/
def resolved (E : Env) : Viper := (start E).viper.configured

/-- The place of an effect among the four start-up steps of `runServer`:
privilege check, removal of the socket path, gops listener, serve call. -/
def stepIndex : Event → Option Nat
  | .requireRoot _ => some 0
  | .remove _ => some 1
  | .gopsListen => some 2
  | .serve => some 3
  | _ => none

/-- Whether an effect is one of the four start-up steps. -/
def Event.isStep (e : Event) : Bool := (stepIndex e).isSome

/-- The four start-up steps of `runServer` with their arguments, in the order of
the program text: `common.RequireRootPrivilege(targetName)`,
`os.Remove(defaults.SockPath)`, `gops.Listen`, `server.Serve()`. -/
def startupSteps (E : Env) : List Event :=
  [.requireRoot targetName, .remove E.SockPath, .gopsListen, .serve]

/-- How many of the start-up steps a run of `runServer` gets to: only the
privilege check when it fails, the first three when the gops listener fails,
all four otherwise. -/
def stepsReached (E : Env) : Nat :=
  if E.isRoot then (if E.gopsListen.isSome then 3 else 4) else 1

/-- Whether an effect is a call of `time.Sleep`. -/
def Event.isSleep : Event → Bool
  | .sleep _ => true
  | _ => false

/-- Whether an effect is a call of `apisocket.SetDefaultPermissions`. -/
def Event.isSetPermissions : Event → Bool
  | .setDefaultPermissions _ => true
  | _ => false

/-- The effects of `k` rounds of the goroutine's loop in which `os.Stat`
fails, from the `i`-th call on: the call, the debug message, the sleep. -/
def failedRounds (E : Env) : Nat → Nat → List Event
  | _, 0 => []
  | i, k + 1 =>
    .stat E.SockPath (E.stat i) :: .logDebug "Cannot find socket" ((E.stat i).getD "")
      :: .sleep Second :: failedRounds E (i + 1) k

/-! ## Sample runs -/

/-- A run with nothing on the command line and nothing in the environment, as
root, in which every call into another package succeeds.  All its strings
are ASCII, so the Unicode tables are never consulted. -/
def plainEnv : Env :=
  { unicodeLower := id, unicodeUpper := id, parseInt := String.toInt?,
    args := [], environ := [], configFile := fun _ _ => none,
    isRoot := true, privilegeExit := 1, SockPath := "/var/run/cilium/health.sock",
    gopsListen := none, NewServer := fun _ => none, NewClient := fun _ => none,
    Serve := .returns none, stat := fun _ => none,
    SetDefaultPermissions := fun _ => none }

/-- The run `cilium-health --daemon`. -/
def daemonEnv : Env := { plainEnv with args := [("daemon", .bool true)] }

/-- The run `cilium-health --daemon` in which `Serve` returns an error. -/
def serveErrorEnv : Env :=
  { daemonEnv with Serve := .returns (some "accept unix: use of closed network connection") }

/-- The run `cilium-health --daemon` in which the gops listener cannot start. -/
def gopsErrorEnv : Env := { daemonEnv with gopsListen := some "gops: agent already listening" }

/-- The run `cilium-health --admin=bogus --daemon`. -/
def bogusDaemonEnv : Env :=
  { plainEnv with args := [("admin", .str "bogus"), ("daemon", .bool true)] }

/-- The run `cilium-health --admin=bogus`, without `--daemon`. -/
def bogusClientEnv : Env := { plainEnv with args := [("admin", .str "bogus")] }

/-- The run `cilium-health --daemon --admin=UNIX --interval=30`. -/
def unixDaemonEnv : Env :=
  { plainEnv with
    args := [("daemon", .bool true), ("admin", .str "UNIX"), ("interval", .int 30)] }

/-- The run `cilium-health --daemon --interval=9223372037`. -/
def hugeIntervalEnv : Env :=
  { plainEnv with args := [("daemon", .bool true), ("interval", .int 9223372037)] }

/-- The run `cilium-health --host=nowhere`, whose host has no scheme, so that
`NewClient` returns an error. -/
def badHostEnv : Env :=
  { plainEnv with
    args := [("host", .str "nowhere")],
    NewClient := fun h => if h == "nowhere" then some "invalid host format" else none }

/-- The run `cilium-health --daemon` with a config file `.cilium-health` in the
home directory that sets `interval` to 30. -/
def configFileEnv : Env :=
  { daemonEnv with
    configFile := fun paths name =>
      if paths == ["$HOME"] && name == ".cilium-health" then some [("interval", .int 30)]
      else none }

/-- A run in which the socket appears at the third call of `os.Stat`. -/
def lateSocketEnv : Env :=
  { daemonEnv with stat := fun i => if i < 2 then some "no such file or directory" else none }

/-- A run in which the socket never appears. -/
def noSocketEnv : Env :=
  { daemonEnv with stat := fun _ => some "no such file or directory" }

/-! ## Unfolding lemmas -/

/-- A `pure` computation returns its value and leaves the state alone. -/
theorem Proc.pure_apply {α : Type} (a : α) (s : State) : (pure a : Proc α) s = .ret a s := rfl

/-- The bind of the monad is `Proc.bind`. -/
theorem Proc.bind_apply {α β : Type} (m : Proc α) (f : α → Proc β) (s : State) :
    (m >>= f) s = Proc.bind m f s := rfl

/-- With an admin setting outside `AdminOptions`, `getAdminOption` ends in `Fatalf`. -/
theorem getAdminOption_invalid (E : Env) (s : State)
    (ha : ToLower E.unicodeLower (s.viper.GetString E "admin") ∉ AdminOptions) :
    getAdminOption E s = .exit (-1) { s with trace := s.trace ++
      [.stderr ("Error: " ++ ("Invalid admin option \"" ++ ToLower E.unicodeLower (s.viper.GetString E "admin")
        ++ "\" (must be one of " ++ fmtSlice AdminOptions ++ ")") ++ "\n")] } := by
  have h : AdminOptions.find? (fun opt => opt == ToLower E.unicodeLower (s.viper.GetString E "admin")) = none := by
    rw [List.find?_eq_none]
    intro x hx hxe
    simp at hxe
    exact ha (hxe ▸ hx)
  simp only [getAdminOption, GetString, getViper, Proc.bind_apply, Proc.bind, Proc.pure_apply, h, Fatalf, emit, osExit]

/-- With an admin setting in `AdminOptions`, `getAdminOption` returns it. -/
theorem getAdminOption_valid (E : Env) (s : State)
    (ha : userOpt E s.viper ∈ AdminOptions) :
    getAdminOption E s = .ret (userOpt E s.viper) s := by
  unfold userOpt at ha ⊢
  have h : AdminOptions.find? (fun opt => opt == ToLower E.unicodeLower (s.viper.GetString E "admin")) = some (ToLower E.unicodeLower (s.viper.GetString E "admin")) := by
    generalize ToLower E.unicodeLower (s.viper.GetString E "admin") = u at ha ⊢
    simp [AdminOptions] at ha
    rcases ha with rfl | rfl <;> simp [AdminOptions, AdminOptionAny, AdminOptionUnix, List.find?]
  simp only [getAdminOption, GetString, getViper, Proc.bind_apply, Proc.bind, Proc.pure_apply, h]

/-- The outcome of `initConfig` in daemon mode with an invalid admin setting. -/
theorem initConfig_daemon_invalid (E : Env) (s : State)
    (hd : s.viper.configured.GetBool E "daemon" = true)
    (ha : ToLower E.unicodeLower (s.viper.configured.GetString E "admin") ∉ AdminOptions) :
    initConfig E s = .exit (-1) { s.configured E with trace := s.trace ++
      [.stderr ("Error: " ++ ("Invalid admin option \"" ++ ToLower E.unicodeLower (s.viper.configured.GetString E "admin")
        ++ "\" (must be one of " ++ fmtSlice AdminOptions ++ ")") ++ "\n")] } := by
  have h1 := getAdminOption_invalid E { s.configured E with logLevel := .debug } ha
  have h2 := getAdminOption_invalid E { s.configured E with logLevel := .info } ha
  simp only [State.configured, Viper.configured] at h1 h2 hd ⊢
  simp only [initConfig, Proc.bind_apply, Proc.bind, modifyViper, GetBool, GetString, getViper,
    Proc.pure_apply]
  split <;> rename_i hdbg
  · simp only [setLogLevel, Proc.bind_apply, Proc.bind, getViper, Proc.pure_apply, hd, if_true, GetString, h1, hdbg]
  · simp only [setLogLevel, Proc.bind_apply, Proc.bind, getViper, Proc.pure_apply, hd, if_true, GetString, h2, hdbg]

/-- The outcome of `initConfig` in daemon mode with a valid admin setting. -/
theorem initConfig_daemon_valid (E : Env) (s : State)
    (hd : s.viper.configured.GetBool E "daemon" = true)
    (ha : userOpt E s.viper.configured ∈ AdminOptions) :
    initConfig E s =
      match E.NewServer (serverConfig E s.viper.configured) with
      | some err => .exit (-1) { s.configured E with trace := s.trace ++
          [.newServer (serverConfig E s.viper.configured),
           .stderr ("Error: " ++ ("Error while creating server: " ++ err ++ "\n") ++ "\n")] }
      | none => .ret () { s.configured E with
          server := some (Server.mk (serverConfig E s.viper.configured)),
          trace := s.trace ++ [.newServer (serverConfig E s.viper.configured)] } := by
  have h1 := getAdminOption_valid E { s.configured E with logLevel := .debug } ha
  have h2 := getAdminOption_valid E { s.configured E with logLevel := .info } ha
  simp only [State.configured, Viper.configured, serverConfig, userOpt] at h1 h2 hd ⊢
  simp only [initConfig, Proc.bind_apply, Proc.bind, modifyViper, GetBool, GetString, GetInt, getViper,
    Proc.pure_apply]
  split <;> rename_i hdbg
  · simp only [setLogLevel, Proc.bind_apply, Proc.bind, getViper, Proc.pure_apply, hd, if_true,
      GetString, GetInt, h1, NewServer, emit]
    generalize E.NewServer _ = r
    cases r <;> simp [hdbg, Fatalf, emit, osExit, setServer, Proc.bind_apply, Proc.bind, Proc.pure_apply]
  · simp only [setLogLevel, Proc.bind_apply, Proc.bind, getViper, Proc.pure_apply, hd, if_true,
      GetString, GetInt, h2, NewServer, emit]
    generalize E.NewServer _ = r
    cases r <;> simp [hdbg, Fatalf, emit, osExit, setServer, Proc.bind_apply, Proc.bind, Proc.pure_apply]

/-- The outcome of `initConfig` outside daemon mode. -/
theorem initConfig_client (E : Env) (s : State)
    (hd : s.viper.configured.GetBool E "daemon" = false) :
    initConfig E s =
      match E.NewClient (s.viper.configured.GetString E "host") with
      | some err => .exit (-1) { s.configured E with trace := s.trace ++
          [.newClient (s.viper.configured.GetString E "host"),
           .stderr ("Error: " ++ ("Error while creating client: " ++ err ++ "\n") ++ "\n")] }
      | none => .ret () { s.configured E with
          client := some (Client.mk (s.viper.configured.GetString E "host")),
          trace := s.trace ++ [.newClient (s.viper.configured.GetString E "host")] } := by
  simp only [State.configured, Viper.configured] at hd ⊢
  simp only [initConfig, Proc.bind_apply, Proc.bind, modifyViper, GetBool, GetString, GetInt, getViper,
    Proc.pure_apply]
  split <;> rename_i hdbg
  · simp only [setLogLevel, Proc.bind_apply, Proc.bind, getViper, Proc.pure_apply, hd,
      GetString, GetInt, NewClient, emit, Bool.false_eq_true, if_false]
    generalize E.NewClient _ = r
    cases r <;> simp [hdbg, Fatalf, emit, osExit, setClient, Proc.bind_apply, Proc.bind, Proc.pure_apply]
  · simp only [setLogLevel, Proc.bind_apply, Proc.bind, getViper, Proc.pure_apply, hd,
      GetString, GetInt, NewClient, emit, Bool.false_eq_true, if_false]
    generalize E.NewClient _ = r
    cases r <;> simp [hdbg, Fatalf, emit, osExit, setClient, Proc.bind_apply, Proc.bind, Proc.pure_apply]

/-- All outcomes of `runServer`, by the results of the calls it makes. -/
theorem runServer_eq (E : Env) (s : State) :
    runServer E s =
      if E.isRoot then
        match E.gopsListen with
        | some err => .exit (-1) { s with trace := s.trace ++
            [.requireRoot targetName, .remove E.SockPath, .gopsListen,
             .stdout ("unable to start gops: " ++ err ++ "\n")] }
        | none =>
          match E.Serve with
          | .blocks => .block { s with trace := s.trace ++
              [.requireRoot targetName, .remove E.SockPath, .gopsListen, .spawnFixup, .serve] }
          | .returns none => .ret () { s with trace := s.trace ++
              [.requireRoot targetName, .remove E.SockPath, .gopsListen, .spawnFixup, .serve,
               .shutdown] }
          | .returns (some err) => .exit 1 { s with trace := s.trace ++
              [.requireRoot targetName, .remove E.SockPath, .gopsListen, .spawnFixup, .serve,
               .logFatal "Failed to serve cilium-health API" err] }
      else .exit E.privilegeExit { s with trace := s.trace ++ [.requireRoot targetName] } := by
  cases hr : E.isRoot <;> cases hg : E.gopsListen <;> rcases hs : E.Serve with _ | (_ | e) <;>
    simp [runServer, RequireRootPrivilege, osRemove, gopsListen, Println, emit, osExit, withDefer,
      Serve, Shutdown, logFatal, Proc.bind_apply, Proc.bind, Proc.pure_apply, hr, hg, hs]


/-- The two branches of `run`. -/
theorem run_eq (E : Env) (s : State) :
    run E s = if s.viper.GetBool E "daemon" then runServer E s
      else .ret () { s with trace := s.trace ++ [.help] } := by
  cases h : s.viper.GetBool E "daemon" <;>
    simp [run, GetBool, getViper, Help, emit, Proc.bind_apply, Proc.bind, Proc.pure_apply, h]

/-- A run ends where `initConfig` ends the process. -/
theorem program_of_init_exit (E : Env) (c : Int) (s1 : State)
    (h : initConfig E (start E) = .exit c s1) : program E = .exit c s1 := by
  simp only [start] at h
  simp only [program, Execute, rootCmdExecute, modifyViper, Proc.bind_apply, Proc.bind,
    Proc.pure_apply, h]

/-- A run in which `initConfig` returns goes on with `run`. -/
theorem program_of_init_ret (E : Env) (s1 : State)
    (h : initConfig E (start E) = .ret () s1) :
    program E =
      match run E s1 with
      | .ret _ s2 => .ret () s2
      | .exit c s2 => .exit c s2
      | .block s2 => .block s2 := by
  simp only [start] at h
  simp only [program, Execute, rootCmdExecute, modifyViper, Proc.bind_apply, Proc.bind,
    Proc.pure_apply, h]
  cases run E s1 <;> rfl

/-- The wrap into `int64` leaves values of the `int64` range alone. -/
theorem wrapInt64_of_range (x : Int) (hlo : -9223372036854775808 ≤ x)
    (hhi : x < 9223372036854775808) : wrapInt64 x = x := by
  unfold wrapInt64
  omega

/-- The product `time.Duration(n) * time.Second` is exact while it fits `int64`. -/
theorem probeInterval_exact (n : Int) (hlo : -9223372036 ≤ n) (hhi : n ≤ 9223372036) :
    Duration.mul (Duration.ofInt n) Second = n * 1000000000 := by
  unfold Duration.mul Duration.ofInt Second
  rw [wrapInt64_of_range n (by omega) (by omega)]
  exact wrapInt64_of_range _ (by omega) (by omega)

/-! ## The daemon supervisor: `runServer` -/

/-- C1 (the code departs from the claim): when `Serve` returns an error,
`runServer` logs it through logrus `Fatal`, which ends the process with
`os.Exit(1)`; the deferred `server.Shutdown()` is never called. -/
theorem runServer_serve_error_skips_shutdown (E : Env) (s : State) (err : String)
    (hr : E.isRoot = true) (hg : E.gopsListen = none)
    (hs : E.Serve = .returns (some err)) :
    runServer E s = .exit 1 { s with trace := s.trace ++
        [.requireRoot targetName, .remove E.SockPath, .gopsListen, .spawnFixup, .serve,
         .logFatal "Failed to serve cilium-health API" err] }
      ∧ Event.shutdown ∉ [Event.requireRoot targetName, .remove E.SockPath, .gopsListen,
          .spawnFixup, .serve, .logFatal "Failed to serve cilium-health API" err] := by
  constructor
  · rw [runServer_eq]
    simp [hr, hg, hs]
  · simp

theorem runServer_serve_error_skips_shutdown_witness :
    serveErrorEnv.Serve = .returns (some "accept unix: use of closed network connection")
      ∧ runServer serveErrorEnv init = .exit 1 { init with trace := init.trace ++
        [.requireRoot targetName, .remove serveErrorEnv.SockPath, .gopsListen, .spawnFixup,
         .serve, .logFatal "Failed to serve cilium-health API"
           "accept unix: use of closed network connection"] }
      ∧ Event.shutdown ∉ [Event.requireRoot targetName, .remove serveErrorEnv.SockPath,
          .gopsListen, .spawnFixup, .serve,
          .logFatal "Failed to serve cilium-health API"
            "accept unix: use of closed network connection"] :=
  ⟨rfl, runServer_serve_error_skips_shutdown serveErrorEnv init
    "accept unix: use of closed network connection" rfl rfl rfl⟩

/-- When `Serve` returns `nil`, the deferred `Shutdown` runs, once, and `runServer` returns. -/
theorem runServer_serve_nil (E : Env) (s : State)
    (hr : E.isRoot = true) (hg : E.gopsListen = none) (hs : E.Serve = .returns none) :
    runServer E s = .ret () { s with trace := s.trace ++
        [.requireRoot targetName, .remove E.SockPath, .gopsListen, .spawnFixup, .serve,
         .shutdown] } := by
  rw [runServer_eq]
  simp [hr, hg, hs]

/-- C6: in every execution of `runServer`, whatever the outcome, the start-up
steps that are performed are exactly the first `stepsReached` of: privilege
check on `targetName`, removal of the socket path `SockPath`, gops listener,
serve call, each once and in this order, so that no later step comes before
an earlier one.  The privilege check is always the first effect; when it
passes, the removal and the listener follow; and when the listener starts
as well, the run performs all four steps, as the effects privilege check,
removal, listener, start of the goroutine, serve call, followed only by
effects that are none of the four steps. -/
theorem runServer_steps_in_order (E : Env) (s : State) :
    ∃ evs, (runServer E s).trace = s.trace ++ evs
      ∧ evs.filter Event.isStep = (startupSteps E).take (stepsReached E)
      ∧ evs.filterMap stepIndex = (List.range 4).take (stepsReached E)
      ∧ evs.head? = some (.requireRoot targetName)
      ∧ (E.isRoot = true →
          evs.take 3 = [.requireRoot targetName, .remove E.SockPath, .gopsListen])
      ∧ (E.isRoot = true → E.gopsListen = none →
          ∃ rest, evs = [.requireRoot targetName, .remove E.SockPath, .gopsListen,
              .spawnFixup, .serve] ++ rest
            ∧ rest.filter Event.isStep = []) := by
  rw [runServer_eq]
  cases hr : E.isRoot
  · exact ⟨_, rfl, by simp [stepsReached, hr, startupSteps, Event.isStep, stepIndex],
      by simp [stepsReached, hr, stepIndex, List.range, List.range.loop], rfl, by simp, by simp⟩
  · cases hg : E.gopsListen with
    | some err =>
      exact ⟨_, rfl, by simp [stepsReached, hr, hg, startupSteps, Event.isStep, stepIndex],
        by simp [stepsReached, hr, hg, stepIndex, List.range, List.range.loop], rfl,
        fun _ => rfl, by simp⟩
    | none =>
      rcases E.Serve with _ | (_ | e)
      · exact ⟨_, rfl, by simp [stepsReached, hr, hg, startupSteps, Event.isStep, stepIndex],
          by simp [stepsReached, hr, hg, stepIndex, List.range, List.range.loop], rfl,
          fun _ => rfl, fun _ _ => ⟨[], rfl, rfl⟩⟩
      · exact ⟨_, rfl, by simp [stepsReached, hr, hg, startupSteps, Event.isStep, stepIndex],
          by simp [stepsReached, hr, hg, stepIndex, List.range, List.range.loop], rfl,
          fun _ => rfl, fun _ _ => ⟨[.shutdown], rfl, rfl⟩⟩
      · exact ⟨_, rfl, by simp [stepsReached, hr, hg, startupSteps, Event.isStep, stepIndex],
          by simp [stepsReached, hr, hg, stepIndex, List.range, List.range.loop], rfl,
          fun _ => rfl, fun _ _ => ⟨[.logFatal "Failed to serve cilium-health API" e], rfl, rfl⟩⟩

theorem runServer_steps_in_order_witness :
    daemonEnv.isRoot = true ∧ daemonEnv.gopsListen = none ∧ stepsReached daemonEnv = 4
      ∧ ∃ evs, (runServer daemonEnv init).trace = init.trace ++ evs
        ∧ evs.filter Event.isStep
          = [.requireRoot "cilium-health", .remove "/var/run/cilium/health.sock",
             .gopsListen, .serve] :=
  ⟨rfl, rfl, rfl,
    (runServer_steps_in_order daemonEnv init).imp (fun _ h => ⟨h.1, h.2.1.trans rfl⟩)⟩

/-- C9: when the privilege check has passed and `gops.Listen` returns an error,
`runServer` prints the error and ends the process with `os.Exit(-1)`, exit
status 255; the goroutine is not started and neither `Serve` nor `Shutdown`
is called. -/
theorem runServer_gops_failure (E : Env) (s : State) (err : String)
    (hr : E.isRoot = true) (hg : E.gopsListen = some err) :
    runServer E s = .exit (-1) { s with trace := s.trace ++
        [.requireRoot targetName, .remove E.SockPath, .gopsListen,
         .stdout ("unable to start gops: " ++ err ++ "\n")] }
      ∧ exitStatus (-1) = 255
      ∧ Event.spawnFixup ∉ [Event.requireRoot targetName, .remove E.SockPath, .gopsListen,
          .stdout ("unable to start gops: " ++ err ++ "\n")]
      ∧ Event.serve ∉ [Event.requireRoot targetName, .remove E.SockPath, .gopsListen,
          .stdout ("unable to start gops: " ++ err ++ "\n")]
      ∧ Event.shutdown ∉ [Event.requireRoot targetName, .remove E.SockPath, .gopsListen,
          .stdout ("unable to start gops: " ++ err ++ "\n")] := by
  refine ⟨?_, by decide, by simp, by simp, by simp⟩
  rw [runServer_eq]
  simp [hr, hg]

theorem runServer_gops_failure_witness :
    gopsErrorEnv.isRoot = true ∧ gopsErrorEnv.gopsListen = some "gops: agent already listening"
      ∧ runServer gopsErrorEnv init = .exit (-1) { init with trace := init.trace ++
        [.requireRoot targetName, .remove gopsErrorEnv.SockPath, .gopsListen,
         .stdout ("unable to start gops: " ++ "gops: agent already listening" ++ "\n")] } :=
  ⟨rfl, rfl, (runServer_gops_failure gopsErrorEnv init "gops: agent already listening" rfl rfl).1⟩

/-! ## Mode selection: `getAdminOption` and `initConfig` -/

/-- The valid admin options are their own lower-case form. -/
theorem toLower_adminOption (tbl : Char → Char) (m : AdminOption) (hm : m ∈ AdminOptions) :
    ToLower tbl m = m := by
  simp only [AdminOptions, List.mem_cons, List.mem_singleton, List.not_mem_nil, or_false] at hm
  rcases hm with rfl | rfl <;> rfl

/-- How the valid options print in the error message. -/
theorem fmtSlice_adminOptions : fmtSlice AdminOptions = "[any unix]" := by decide

/-- C2: in daemon mode, when the lower-cased admin setting is not one of
`AdminOptions`, `initConfig` ends in `Fatalf`: the process exits through
`os.Exit(-1)`, exit status 255, after one line on stderr that quotes the
lower-cased value and lists the valid options, `[any unix]`.  That line is
the only effect: `NewServer` is not called and the variable `server` is left
as it was. -/
theorem initConfig_invalid_admin_fatal (E : Env) (s : State)
    (hd : s.viper.configured.GetBool E "daemon" = true)
    (ha : userOpt E s.viper.configured ∉ AdminOptions) :
    ∃ s1, initConfig E s = .exit (-1) s1
      ∧ initConfig E s = Fatalf ("Invalid admin option \"" ++ userOpt E s.viper.configured
          ++ "\" (must be one of " ++ fmtSlice AdminOptions ++ ")") (s.configured E)
      ∧ exitStatus (-1) = 255
      ∧ s1.trace = s.trace ++ [.stderr ("Error: " ++ ("Invalid admin option \""
          ++ userOpt E s.viper.configured ++ "\" (must be one of " ++ "[any unix]" ++ ")")
          ++ "\n")]
      ∧ s1.server = s.server := by
  refine ⟨_, initConfig_daemon_invalid E s hd ha, ?_, by decide, ?_, rfl⟩
  · rw [initConfig_daemon_invalid E s hd ha]
    rfl
  · rw [← fmtSlice_adminOptions]
    rfl

theorem initConfig_invalid_admin_fatal_witness :
    (start bogusDaemonEnv).viper.configured.GetBool bogusDaemonEnv "daemon" = true
      ∧ userOpt bogusDaemonEnv (start bogusDaemonEnv).viper.configured ∉ AdminOptions
      ∧ ∃ s1, initConfig bogusDaemonEnv (start bogusDaemonEnv) = .exit (-1) s1
        ∧ s1.trace = [.stderr "Error: Invalid admin option \"bogus\" (must be one of [any unix])\n"]
        ∧ s1.server = none :=
  ⟨by decide, by decide,
    (initConfig_invalid_admin_fatal bogusDaemonEnv (start bogusDaemonEnv)
      (by decide) (by decide)).imp
      (fun _ h => ⟨h.1, h.2.2.2.1.trans (by decide), h.2.2.2.2.trans rfl⟩)⟩

/-- In daemon mode with a valid admin setting `initConfig` calls `NewServer` once, with `serverConfig`. -/
theorem initConfig_daemon_valid_trace (E : Env) (s : State)
    (hd : s.viper.configured.GetBool E "daemon" = true)
    (ha : userOpt E s.viper.configured ∈ AdminOptions) :
    ∃ rest, (initConfig E s).trace
        = s.trace ++ .newServer (serverConfig E s.viper.configured) :: rest
      ∧ ∀ c, Event.newServer c ∉ rest := by
  rw [initConfig_daemon_valid E s hd ha]
  cases E.NewServer (serverConfig E s.viper.configured) with
  | none => exact ⟨[], rfl, by simp⟩
  | some err => exact ⟨_, rfl, by simp⟩

/-- C3: let `m` be one of the options `any`, `unix`.  Whenever the admin
setting equals `m` up to letter case (the two have the same lower-case
form), `getAdminOption` returns `m` itself, with no effect and no exit; and
in daemon mode `initConfig` then calls `NewServer` exactly once, with a
configuration whose `Admin` field is `m`. -/
theorem getAdminOption_accepts (E : Env) (m : AdminOption) (hm : m ∈ AdminOptions) :
    (∀ s : State,
        ToLower E.unicodeLower (s.viper.GetString E "admin") = ToLower E.unicodeLower m →
        getAdminOption E s = .ret m s)
      ∧ (∀ s : State,
        ToLower E.unicodeLower (s.viper.configured.GetString E "admin")
          = ToLower E.unicodeLower m →
        s.viper.configured.GetBool E "daemon" = true →
        ∃ cfg rest, cfg.Admin = m
          ∧ (initConfig E s).trace = s.trace ++ .newServer cfg :: rest
          ∧ ∀ c, Event.newServer c ∉ rest) := by
  have hlow := toLower_adminOption E.unicodeLower m hm
  constructor
  · intro s hs
    have hu : userOpt E s.viper = m := by rw [userOpt, hs, hlow]
    have h := getAdminOption_valid E s (by rw [hu]; exact hm)
    rw [hu] at h
    exact h
  · intro s hs hd
    have hu : userOpt E s.viper.configured = m := by rw [userOpt, hs, hlow]
    obtain ⟨rest, h1, h2⟩ := initConfig_daemon_valid_trace E s hd (by rw [hu]; exact hm)
    exact ⟨_, rest, hu, h1, h2⟩

theorem getAdminOption_accepts_witness :
    AdminOptionUnix ∈ AdminOptions
      ∧ (start unixDaemonEnv).viper.configured.GetString unixDaemonEnv "admin" = "UNIX"
      ∧ getAdminOption unixDaemonEnv ((start unixDaemonEnv).configured unixDaemonEnv)
        = .ret "unix" ((start unixDaemonEnv).configured unixDaemonEnv)
      ∧ ∃ cfg rest, cfg.Admin = "unix"
        ∧ (initConfig unixDaemonEnv (start unixDaemonEnv)).trace
          = (start unixDaemonEnv).trace ++ .newServer cfg :: rest
        ∧ ∀ c, Event.newServer c ∉ rest :=
  ⟨by decide, by decide,
    (getAdminOption_accepts unixDaemonEnv AdminOptionUnix (by decide)).1
      ((start unixDaemonEnv).configured unixDaemonEnv) (by decide),
    (getAdminOption_accepts unixDaemonEnv AdminOptionUnix (by decide)).2
      (start unixDaemonEnv) (by decide) (by decide)⟩

/-- C5, amended: in daemon mode with a valid admin option, for every interval
`n` with `-9223372036 ≤ n ≤ 9223372036` the configuration `initConfig` hands
to `NewServer` has `ProbeInterval` exactly `n * 10^9` nanoseconds (`n`
seconds) and `ProbeDeadline` exactly `10^9` nanoseconds (one second), and
`CiliumURI`, `Debug` and `Passive` are the resolved settings. -/
theorem initConfig_probe_timing (E : Env) (s : State) (n : Int)
    (hd : s.viper.configured.GetBool E "daemon" = true)
    (ha : userOpt E s.viper.configured ∈ AdminOptions)
    (hn : s.viper.configured.GetInt E "interval" = n)
    (hlo : -9223372036 ≤ n) (hhi : n ≤ 9223372036) :
    ∃ rest, (initConfig E s).trace = s.trace ++ .newServer
        { CiliumURI := s.viper.configured.GetString E "cilium",
          Debug := s.viper.configured.GetBool E "debug",
          Passive := s.viper.configured.GetBool E "passive",
          Admin := userOpt E s.viper.configured,
          ProbeInterval := n * 1000000000,
          ProbeDeadline := 1000000000 } :: rest
      ∧ ∀ c, Event.newServer c ∉ rest := by
  obtain ⟨rest, h1, h2⟩ := initConfig_daemon_valid_trace E s hd ha
  refine ⟨rest, ?_, h2⟩
  rw [h1, serverConfig, hn, probeInterval_exact n hlo hhi]
  rfl

theorem initConfig_probe_timing_witness :
    (start unixDaemonEnv).viper.configured.GetInt unixDaemonEnv "interval" = 30
      ∧ ∃ rest, (initConfig unixDaemonEnv (start unixDaemonEnv)).trace
        = (start unixDaemonEnv).trace ++ .newServer
          { CiliumURI := "", Debug := false, Passive := false, Admin := "unix",
            ProbeInterval := 30 * 1000000000, ProbeDeadline := 1000000000 } :: rest
        ∧ ∀ c, Event.newServer c ∉ rest :=
  ⟨by decide, initConfig_probe_timing unixDaemonEnv (start unixDaemonEnv) 30
    (by decide) (by decide) (by decide) (by decide) (by decide)⟩

/-- C5 as stated fails: the run `--daemon --interval=9223372037` is in daemon
mode with the valid admin option `any` and interval `n = 9223372037`, and
the configuration handed to `NewServer` has `ProbeInterval`
`-9223372036709551616`, not `n * 10^9`: the `int64` product has wrapped. -/
theorem initConfig_probe_interval_overflow :
    (resolved hugeIntervalEnv).GetBool hugeIntervalEnv "daemon" = true
      ∧ userOpt hugeIntervalEnv (resolved hugeIntervalEnv) ∈ AdminOptions
      ∧ (resolved hugeIntervalEnv).GetInt hugeIntervalEnv "interval" = 9223372037
      ∧ (initConfig hugeIntervalEnv (start hugeIntervalEnv)).trace
        = [Event.newServer
            { CiliumURI := "", Debug := false, Passive := false, Admin := "any",
              ProbeInterval := -9223372036709551616, ProbeDeadline := 1000000000 }]
      ∧ (-9223372036709551616 : Int) ≠ 9223372037 * 1000000000 := by
  refine ⟨by decide, by decide, by decide, ?_, by decide⟩
  rw [initConfig_daemon_valid hugeIntervalEnv (start hugeIntervalEnv) (by decide) (by decide)]
  decide

/-! ## The whole run: `Execute` -/

/-- A run in daemon mode with an invalid admin setting ends in `initConfig`. -/
theorem program_exit_of_invalid_admin (E : Env)
    (hd : (resolved E).GetBool E "daemon" = true)
    (ha : userOpt E (resolved E) ∉ AdminOptions) :
    program E = .exit (-1) { (start E).configured E with trace :=
      [.stderr ("Error: " ++ ("Invalid admin option \"" ++ userOpt E (resolved E)
        ++ "\" (must be one of " ++ fmtSlice AdminOptions ++ ")") ++ "\n")] } :=
  program_of_init_exit E _ _ (initConfig_daemon_invalid E (start E) hd ha)

/-- The outcome of a run outside daemon mode. -/
theorem program_client (E : Env) (hd : (resolved E).GetBool E "daemon" = false) :
    program E =
      match E.NewClient ((resolved E).GetString E "host") with
      | some err => .exit (-1) { (start E).configured E with trace :=
          [.newClient ((resolved E).GetString E "host"),
           .stderr ("Error: " ++ ("Error while creating client: " ++ err ++ "\n") ++ "\n")] }
      | none => .ret () { (start E).configured E with
          client := some (Client.mk ((resolved E).GetString E "host")),
          trace := [.newClient ((resolved E).GetString E "host"), .help] } := by
  have h := initConfig_client E (start E) hd
  cases hc : E.NewClient ((resolved E).GetString E "host") with
  | some err =>
    have hc2 : E.NewClient ((start E).viper.configured.GetString E "host") = some err := hc
    rw [hc2] at h
    exact program_of_init_exit E _ _ h
  | none =>
    have hc2 : E.NewClient ((start E).viper.configured.GetString E "host") = none := hc
    rw [hc2] at h
    rw [program_of_init_ret E _ h, run_eq]
    have hd2 : Viper.GetBool E (start E).viper.configured "daemon" = false := hd
    simp only [State.configured, hd2]
    rfl

/-- C4, amended: for every resolved configuration in daemon mode whose admin
value is not in the enumerated set, the run ends during initialization with
a fatal error that lists the valid options: exit through `os.Exit(-1)`, the
message on stderr as the only effect, so that the run proceeds neither to
serving nor to the help output.  (Outside daemon mode the admin value is not
looked at.) -/
theorem program_daemon_invalid_admin_fatal (E : Env)
    (hd : (resolved E).GetBool E "daemon" = true)
    (ha : userOpt E (resolved E) ∉ AdminOptions) :
    (program E).exitCode = some (-1)
      ∧ exitStatus (-1) = 255
      ∧ (program E).trace = [.stderr ("Error: " ++ ("Invalid admin option \""
          ++ userOpt E (resolved E) ++ "\" (must be one of " ++ "[any unix]" ++ ")") ++ "\n")]
      ∧ (program E).state.server = none := by
  rw [program_exit_of_invalid_admin E hd ha, fmtSlice_adminOptions]
  exact ⟨rfl, by decide, rfl, rfl⟩

theorem program_daemon_invalid_admin_fatal_witness :
    (resolved bogusDaemonEnv).GetBool bogusDaemonEnv "daemon" = true
      ∧ userOpt bogusDaemonEnv (resolved bogusDaemonEnv) = "bogus"
      ∧ (program bogusDaemonEnv).exitCode = some (-1) :=
  ⟨by decide, by decide,
    (program_daemon_invalid_admin_fatal bogusDaemonEnv (by decide) (by decide)).1⟩

/-- C4 as stated fails outside daemon mode: the run `--admin=bogus` has an
admin value that is not in the enumerated set, and it completes
initialization, prints the help text and exits with code 0; nothing is
written to stderr. -/
theorem program_client_ignores_admin :
    (resolved bogusClientEnv).GetBool bogusClientEnv "daemon" = false
      ∧ userOpt bogusClientEnv (resolved bogusClientEnv) = "bogus"
      ∧ userOpt bogusClientEnv (resolved bogusClientEnv) ∉ AdminOptions
      ∧ (program bogusClientEnv).trace = [.newClient "", .help]
      ∧ (program bogusClientEnv).exitCode = some 0 := by
  refine ⟨by decide, by decide, by decide, ?_, ?_⟩ <;>
    rw [program_client bogusClientEnv (by decide)] <;> decide

/-- C8, amended: for every invocation whose resolved configuration has
`daemon = false` and for which `NewClient` succeeds, the effects of the run
are the `NewClient` call and the help text, in this order, and nothing else
(no privilege check, no socket removal, no gops listener, no `Serve`); the
run exits with code 0. -/
theorem program_without_daemon_prints_help (E : Env)
    (hd : (resolved E).GetBool E "daemon" = false)
    (hc : E.NewClient ((resolved E).GetString E "host") = none) :
    (program E).trace = [.newClient ((resolved E).GetString E "host"), .help]
      ∧ (program E).exitCode = some 0
      ∧ (program E).state.server = none := by
  rw [program_client E hd, hc]
  exact ⟨rfl, rfl, rfl⟩

theorem program_without_daemon_prints_help_witness :
    (resolved plainEnv).GetBool plainEnv "daemon" = false
      ∧ (program plainEnv).trace = [.newClient "", .help]
      ∧ (program plainEnv).exitCode = some 0
      ∧ (program plainEnv).state.server = none :=
  ⟨by decide, program_without_daemon_prints_help plainEnv (by decide) (by decide)⟩

/-- C8 as stated fails when the client cannot be built: the run
`--host=nowhere` has `daemon = false`, and it prints no help text and ends
through `Fatalf` with `os.Exit(-1)`, exit status 255. -/
theorem program_without_daemon_client_error :
    (resolved badHostEnv).GetBool badHostEnv "daemon" = false
      ∧ (program badHostEnv).trace = [.newClient "nowhere",
          .stderr "Error: Error while creating client: invalid host format\n\n"]
      ∧ Event.help ∉ (program badHostEnv).trace
      ∧ (program badHostEnv).exitCode = some (-1)
      ∧ exitStatus (-1) = 255 := by
  refine ⟨by decide, ?_, ?_, ?_, by decide⟩ <;>
    rw [program_client badHostEnv (by decide)] <;> decide

/-- In viper's lookup a flag the command line set wins over everything else. -/
theorem find_flag_first (E : Env) (v : Viper) (key : String) (f : Flag)
    (hf : v.pflags.find? (fun g => g.name == key) = some f) (hc : f.changed = true) :
    v.find E key = some (f.cast E) := by
  simp [Viper.find, hf, hc, Option.filter]

/-- Without such a flag, and with `AutomaticEnv` on, a non-empty environment
variable wins over the config that was read and over the flag default. -/
theorem find_env_second (E : Env) (v : Viper) (key : String)
    (hf : (v.pflags.find? (fun g => g.name == key)).filter (fun g => g.changed) = none)
    (ha : v.automaticEnvApplied = true)
    (he : Getenv E (v.mergeWithEnvPrefix E key) ≠ "") :
    v.find E key = some (.str (Getenv E (v.mergeWithEnvPrefix E key))) := by
  simp [Viper.find, hf, ha, he]

/-- Without either, a setting of the config that was read wins over the flag
default.  The config is filled by `ReadInConfig` only. -/
theorem find_config_third (E : Env) (v : Viper) (key : String) (c : Value)
    (hf : (v.pflags.find? (fun g => g.name == key)).filter (fun g => g.changed) = none)
    (he : (if v.automaticEnvApplied then Getenv E (v.mergeWithEnvPrefix E key) else "") = "")
    (hc : v.config.lookup key = some c) :
    v.find E key = some c := by
  simp only [Viper.find, hf, he, hc]
  rfl

/-- The set-up calls of `initConfig` leave the config of the viper instance as
it was: empty, in a run of the program. -/
theorem resolved_config_empty (E : Env) : (resolved E).config = [] := rfl

/-- C10 (the code departs from the claim): in the run `--daemon` with a config
file in the home directory that sets `interval` to 30 and with no flag and
no environment variable for it, `initConfig` reads the interval as 60, the
default of the flag, and hands `NewServer` a probe interval of 60 seconds.
The file is never loaded: `initConfig` names it but does not call
`ReadInConfig`, after which the value read would be 30. -/
theorem initConfig_ignores_config_file :
    configFileEnv.configFile ["$HOME"] ".cilium-health" = some [("interval", .int 30)]
      ∧ (resolved configFileEnv).GetInt configFileEnv "interval" = 60
      ∧ (initConfig configFileEnv (start configFileEnv)).trace
        = [Event.newServer
            { CiliumURI := "", Debug := false, Passive := false, Admin := "any",
              ProbeInterval := 60000000000, ProbeDeadline := 1000000000 }]
      ∧ ((resolved configFileEnv).ReadInConfig configFileEnv).GetInt configFileEnv "interval"
        = 30 := by
  refine ⟨by decide, by decide, ?_, by decide⟩
  rw [initConfig_daemon_valid configFileEnv (start configFileEnv) (by decide) (by decide)]
  decide

/-! ## The permission goroutine -/

/-- The sleeps of `k` failed rounds are `k` sleeps of one second. -/
theorem failedRounds_sleeps (E : Env) (k : Nat) :
    ∀ i, (failedRounds E i k).filter Event.isSleep = List.replicate k (.sleep Second) := by
  induction k with
  | zero => intro i; rfl
  | succ k ih =>
    intro i
    simp [failedRounds, List.filter, Event.isSleep, ih (i + 1), List.replicate_succ]

/-- Failed rounds do not call `SetDefaultPermissions`. -/
theorem failedRounds_no_setPermissions (E : Env) (k : Nat) :
    ∀ i, (failedRounds E i k).filter Event.isSetPermissions = [] := by
  induction k with
  | zero => intro i; rfl
  | succ k ih =>
    intro i
    simp only [failedRounds, List.filter, Event.isSetPermissions]
    exact ih (i + 1)

/-- The loop leaves through `break` at the first successful stat, given the rounds for it. -/
theorem statLoop_found (E : Env) (k : Nat) :
    ∀ fuel i, (∀ j, j < k → E.stat (i + j) ≠ none) → E.stat (i + k) = none → k < fuel →
      statLoop E fuel i = (failedRounds E i k ++ [.stat E.SockPath none], true) := by
  induction k with
  | zero =>
    intro fuel i _ h0 hf
    obtain ⟨f, rfl⟩ : ∃ f, fuel = f + 1 := ⟨fuel - 1, by omega⟩
    simp only [Nat.add_zero] at h0
    simp [statLoop, h0, failedRounds]
  | succ k ih =>
    intro fuel i hfail hk hf
    obtain ⟨f, rfl⟩ : ∃ f, fuel = f + 1 := ⟨fuel - 1, by omega⟩
    have h0 : E.stat i ≠ none := by simpa using hfail 0 (by omega)
    obtain ⟨err, herr⟩ := Option.ne_none_iff_exists'.mp h0
    have hrec := ih f (i + 1)
      (fun j hj => by
        have := hfail (j + 1) (by omega)
        rwa [show i + (j + 1) = i + 1 + j by omega] at this)
      (by rwa [show i + (k + 1) = i + 1 + k by omega] at hk) (by omega)
    simp only [statLoop, herr, hrec, failedRounds, Option.getD_some, List.cons_append]
    rfl

/-- While every stat fails, the loop goes on. -/
theorem statLoop_never (E : Env) (h : ∀ j, E.stat j ≠ none) (fuel : Nat) :
    ∀ i, statLoop E fuel i = (failedRounds E i fuel, false) := by
  induction fuel with
  | zero => intro i; rfl
  | succ f ih =>
    intro i
    obtain ⟨err, herr⟩ := Option.ne_none_iff_exists'.mp (h i)
    simp only [statLoop, herr, ih (i + 1), failedRounds, Option.getD_some]
    rfl

/-- C7: let the first successful `os.Stat` on the socket path come after `k`
failed ones.  Given more than `k` rounds, the goroutine performs the `k`
failed rounds (stat, debug message, sleep of one second), then the
successful stat, then calls `SetDefaultPermissions` on the socket path, and
ends: it returns after an info message when that call succeeds, and ends the
process through logrus `Fatal` (`os.Exit(1)`) when it fails.  Its sleeps are
exactly `k` sleeps of one second, `SetDefaultPermissions` is called exactly
once, and not during the failed rounds.  When no stat ever succeeds, the
goroutine is still polling after any number of rounds and has not called
`SetDefaultPermissions`. -/
theorem permissionFixup_polls_then_sets_once (E : Env) :
    (∀ k, (∀ j, j < k → E.stat j ≠ none) → E.stat k = none → ∀ fuel, k < fuel →
        (E.SetDefaultPermissions E.SockPath = none →
          permissionFixup E fuel = .done (failedRounds E 0 k ++
            [.stat E.SockPath none, .setDefaultPermissions E.SockPath,
             .logInfo "Successfully set default permissions on socket"]))
        ∧ (∀ err, E.SetDefaultPermissions E.SockPath = some err →
          permissionFixup E fuel = .exit 1 (failedRounds E 0 k ++
            [.stat E.SockPath none, .setDefaultPermissions E.SockPath,
             .logFatal "Cannot set default permissions on socket" err]))
        ∧ (permissionFixup E fuel).trace.filter Event.isSleep
            = List.replicate k (.sleep 1000000000)
        ∧ (permissionFixup E fuel).trace.filter Event.isSetPermissions
            = [.setDefaultPermissions E.SockPath]
        ∧ (failedRounds E 0 k).filter Event.isSetPermissions = [])
      ∧ ((∀ j, E.stat j ≠ none) → ∀ fuel,
        permissionFixup E fuel = .polling (failedRounds E 0 fuel)
        ∧ (failedRounds E 0 fuel).filter Event.isSetPermissions = []
        ∧ (failedRounds E 0 fuel).filter Event.isSleep
            = List.replicate fuel (.sleep 1000000000)) := by
  constructor
  · intro k hfail hk fuel hf
    have hloop := statLoop_found E k fuel 0 (by simpa using hfail) (by simpa using hk) hf
    have hs : (failedRounds E 0 k).filter Event.isSleep
        = List.replicate k (.sleep 1000000000) := failedRounds_sleeps E k 0
    have hp := failedRounds_no_setPermissions E k 0
    refine ⟨?_, ?_, ?_, ?_, hp⟩
    · intro hperm
      simp [permissionFixup, hloop, hperm]
    · intro err hperm
      simp [permissionFixup, hloop, hperm]
    · cases hperm : E.SetDefaultPermissions E.SockPath <;>
        simp [permissionFixup, hloop, hperm, TaskOutcome.trace, List.filter_append, hs,
          Event.isSleep, List.filter]
    · cases hperm : E.SetDefaultPermissions E.SockPath <;>
        simp [permissionFixup, hloop, hperm, TaskOutcome.trace, List.filter_append, hp,
          Event.isSetPermissions, List.filter]
  · intro hnever fuel
    refine ⟨?_, failedRounds_no_setPermissions E fuel 0, failedRounds_sleeps E fuel 0⟩
    simp [permissionFixup, statLoop_never E hnever fuel 0]

theorem permissionFixup_polls_then_sets_once_witness :
    lateSocketEnv.stat 2 = none
      ∧ permissionFixup lateSocketEnv 5 = .done (failedRounds lateSocketEnv 0 2 ++
          [.stat lateSocketEnv.SockPath none, .setDefaultPermissions lateSocketEnv.SockPath,
           .logInfo "Successfully set default permissions on socket"])
      ∧ permissionFixup noSocketEnv 5 = .polling (failedRounds noSocketEnv 0 5) :=
  ⟨rfl,
    ((permissionFixup_polls_then_sets_once lateSocketEnv).1 2 (by decide) rfl 5
      (by decide)).1 rfl,
    ((permissionFixup_polls_then_sets_once noSocketEnv).2
      (fun _ h => Option.noConfusion h) 5).1⟩

end CiliumHealth
